import Mathlib

/-!
# Verification of the jobpilot AI-client core and its consuming workflows

Shallow embedding of `app/services/ai/openai_client.py`,
`app/dependencies/ai_client.py`, and the AI-response handling segments of
`app/services/resume/service.py` and `app/services/analytics/service.py`.

Python machine-level conventions used throughout:
* `str | None` values are `Option String`; Python truthiness of a string
  (`x or d`) treats both `None` and `""` as falsy (`pyOrStr`).
* JSON values decoded by `json.loads` are an inductive `Json`;
  `dict.get` semantics (including `AttributeError` on non-dicts) are
  `Json.pyGet`.
* Stdlib routines whose semantics the repository does not define
  (`json.loads`, `float(str)`) are injected as an oracle (`PyOracle`),
  never re-implemented.
* `uuid.uuid4()` is modelled as a draw from a process-wide nonce source
  (`uuidStr`); only freshness (distinct draws give distinct, non-empty
  strings) is meaningful, not the rendering.
-/

namespace JobPilot

/-- JSON value as produced by Python's `json.loads`: `null`, booleans,
numbers, strings, arrays, and objects (association lists of string keys). -/
inductive Json where
  | null : Json
  | bool (b : Bool) : Json
  | num (q : ℚ) : Json
  | str (s : String) : Json
  | arr (items : List Json) : Json
  | obj (fields : List (String × Json)) : Json

/-- Python exception outcomes relevant to the embedded code paths. -/
inductive PyErr where
  | validationException (msg : String)
  | runtimeError (msg : String)
  | httpStatusError (status : Nat)
  | indexError
  | attributeError
  | typeError
  | valueError
  | jsonDecodeError
  deriving DecidableEq, Repr

/-- Semantics of `d.get(k, default)` for a Python value `d`: returns the
value bound to `k` (first binding), else the default; raises
`AttributeError` when the receiver is not a dict — exactly what the
workflow code can hit after `json.loads` returns a non-object. -/
def Json.pyGet (j : Json) (k : String) (default : Json) : Except PyErr Json :=
  match j with
  | .obj fields => .ok ((fields.lookup k).getD default)
  | _ => .error .attributeError

/-- Python expression `x or d` for `x : str | None`: both `None` and the
empty string are falsy. -/
def pyOrStr (x : Option String) (d : String) : String :=
  match x with
  | none => d
  | some s => if s = "" then d else s

/-- Oracle for Python-stdlib routines used by the workflows: `jsonLoads s`
is `some v` when `json.loads(s)` succeeds with value `v` and `none` when it
raises, and `strToFloat s` likewise models `float(s)` on strings. The
repository never defines these; they are parameters of the embedding. -/
structure PyOracle where
  jsonLoads : String → Option Json
  strToFloat : String → Option ℚ

/-- Semantics of `float(x)` on a decoded JSON value (`app/services/resume/service.py`,
`create_match`): numbers pass through, booleans coerce to 0/1, strings go
through the `float(str)` oracle (`ValueError` when unparseable), and every
other shape raises `TypeError`. -/
def pyFloat (py : PyOracle) : Json → Except PyErr ℚ
  | .num q => .ok q
  | .bool b => .ok (if b then 1 else 0)
  | .str s =>
      match py.strToFloat s with
      | some q => .ok q
      | none => .error .valueError
  | _ => .error .typeError

/-! ## Data model (`app/services/ai/base.py`) -/

/-- Dataclass `ChatMessage`: a role string and free-text content. The
role is typed as a three-value `Literal`; at runtime the field is a plain
string. -/
structure ChatMessage where
  role : String
  content : String
  deriving DecidableEq, Repr

/-- Dataclass `ChatCompletionChoice`: index, message, optional finish
reason. -/
structure ChatCompletionChoice where
  index : Int
  message : ChatMessage
  finish_reason : Option String
  deriving DecidableEq, Repr

/-- Dataclass `ChatCompletionResult`: normalized response. `usage` is an
opaque passthrough mapping, kept as a JSON value. -/
structure ChatCompletionResult where
  id : String
  model : String
  choices : List ChatCompletionChoice
  usage : Option Json

/-! ## Provider wire shapes (§6 of the spec)

The provider's decoded JSON body in the shape the adapter reads:
`{id?, model?, choices: [{index?, message: {role?, content?},
finish_reason?}], usage?}`. Each field is either absent or carries a value
of its wire type. -/

/-- Provider `message` object with optional `role` / `content`. -/
structure ProviderMessage where
  role : Option String
  content : Option String
  deriving DecidableEq, Repr

/-- One element of the provider's `choices` array. -/
structure ProviderChoice where
  index : Option Int
  message : Option ProviderMessage
  finish_reason : Option String
  deriving DecidableEq, Repr

/-- The provider response body after `response.json()`. -/
structure ProviderData where
  id : Option String
  model : Option String
  choices : Option (List ProviderChoice)
  usage : Option Json

/-- An HTTP response from the transport: status code plus decoded body. -/
structure HttpResponse where
  status : Nat
  body : ProviderData

/-! ## The adapter (`app/services/ai/openai_client.py`) -/

/-- The environment variables the adapter's constructor reads. -/
structure Env where
  AI_API_BASE : Option String
  AI_API_KEY : Option String
  AI_MODEL_DEFAULT : Option String

/-- State of an `OpenAICompatibleClient` after `__init__`: the three resolved
configuration strings, the timeout, and the identity of the
`httpx.AsyncClient` allocated by the constructor (`self._client`), kept as
an opaque handle. -/
structure OpenAICompatibleClient where
  api_base : String
  api_key : String
  default_model : String
  timeout_seconds : ℚ
  transportHandle : Nat
  deriving DecidableEq, Repr

/-- Constructor `OpenAICompatibleClient.__init__`: each configuration value prefers the
explicit constructor argument, then the environment variable (via
`os.getenv` with its default), resolved under Python string truthiness.
`handle` identifies the freshly constructed `httpx.AsyncClient`. -/
def OpenAICompatibleClient.init (env : Env)
    (api_base api_key default_model : Option String)
    (timeout_seconds : ℚ) (handle : Nat) : OpenAICompatibleClient :=
  { api_base := pyOrStr api_base (env.AI_API_BASE.getD "https://api.openai.com/v1")
    api_key := pyOrStr api_key (env.AI_API_KEY.getD "")
    default_model := pyOrStr default_model (env.AI_MODEL_DEFAULT.getD "gpt-4.1-mini")
    timeout_seconds := timeout_seconds
    transportHandle := handle }

/-- Arguments of one `chat_completion` call, after Python default
substitution (`temperature=0.3`, `max_tokens=800` when the caller omits
them — callers may also pass `None` explicitly). `metadata` is a
string-keyed mapping. -/
structure ChatRequest where
  model : Option String
  messages : List ChatMessage
  temperature : Option ℚ
  max_tokens : Option Int
  metadata : Option (List (String × Json))

/-- The JSON request body posted to the provider. `messages` holds the
`m.__dict__` serialization of each message — exactly its role/content
pair. `metadata` is present only when the `if metadata:` guard fired. -/
structure RequestPayload where
  model : String
  messages : List ChatMessage
  temperature : Option ℚ
  max_tokens : Option Int
  metadata : Option (List (String × Json))

/-- Payload construction, lines 62–69 of `openai_client.py`: resolved
model (`model or self.default_model`), messages in order, temperature and
max_tokens as given; `if metadata: payload["metadata"] = dict(metadata)` —
Python mapping truthiness, so an absent or empty mapping adds no field. -/
def buildPayload (c : OpenAICompatibleClient) (req : ChatRequest) : RequestPayload :=
  { model := pyOrStr req.model c.default_model
    messages := req.messages
    temperature := req.temperature
    max_tokens := req.max_tokens
    metadata :=
      match req.metadata with
      | some m => if m.isEmpty then none else some m
      | none => none }

/-- Semantics of `self.api_base.rstrip` with a slash argument: strip every
trailing slash. -/
def rstripSlashes (s : String) : String :=
  String.mk ((s.data.reverse.dropWhile (fun ch => ch = '/')).reverse)

/-- The endpoint URL: stripped base joined with the fixed path suffix. -/
def endpointUrl (c : OpenAICompatibleClient) : String :=
  rstripSlashes c.api_base ++ "/chat/completions"

/-- Model of `uuid.uuid4()`: the process-wide generator is a nonce source
and `uuidStr n` renders the `n`-th draw. Only the properties the adapter
relies on are meaningful — every draw is a non-empty string and distinct
draws render distinct strings — not the concrete rendering. -/
def uuidStr (n : Nat) : String :=
  String.mk (List.replicate (n + 1) 'u')

/-- Normalization of one provider choice at enumerate position `idx`:
`choice.get("index", idx)`, `choice.get("message", {})`,
`message.get("role", "assistant")`, `message.get("content", "")`,
`choice.get("finish_reason")`. -/
def normChoice (idx : Nat) (pc : ProviderChoice) : ChatCompletionChoice :=
  let message := pc.message.getD { role := none, content := none }
  { index := pc.index.getD (Int.ofNat idx)
    message :=
      { role := message.role.getD "assistant"
        content := message.content.getD "" }
    finish_reason := pc.finish_reason }

/-- Loop `for idx, choice in enumerate(data.get("choices", []))`,
accumulating normalized choices positionally from position `idx`. -/
def normalizeChoices : Nat → List ProviderChoice → List ChatCompletionChoice
  | _, [] => []
  | idx, pc :: rest => normChoice idx pc :: normalizeChoices (idx + 1) rest

/-- Method `OpenAICompatibleClient.chat_completion`, embedded as a function of the
client, the request, the transport (what `self._client.post` would answer
at the built URL and payload — a transport double), and the uuid nonce of
this call. Returns the call outcome, whether the transport was invoked,
and the client state after the call (the method body assigns no `self`
attribute, which the returned state makes checkable).

Paths, in source order:
1. `if not self.api_key: raise RuntimeError(...)` — before any payload or
   network work;
2. `response.raise_for_status()` — httpx raises `HTTPStatusError` for any
   status outside 2xx;
3. success: normalize the decoded body; `str(data.get("id") or
   uuid.uuid4())` falls back to a fresh uuid when `id` is absent or falsy,
   `data.get("model", model or self.default_model)` falls back only on
   absence, `data.get("usage")` passes through. -/
def chat_completion (c : OpenAICompatibleClient) (req : ChatRequest)
    (transport : String → RequestPayload → HttpResponse) (uuidNonce : Nat) :
    Except PyErr ChatCompletionResult × Bool × OpenAICompatibleClient :=
  if c.api_key = "" then
    (.error (.runtimeError "AI_API_KEY is not configured"), false, c)
  else
    let payload := buildPayload c req
    let response := transport (endpointUrl c) payload
    if 200 ≤ response.status ∧ response.status < 300 then
      let data := response.body
      (.ok
        { id := pyOrStr data.id (uuidStr uuidNonce)
          model := data.model.getD (pyOrStr req.model c.default_model)
          choices := normalizeChoices 0 (data.choices.getD [])
          usage := data.usage },
        true, c)
    else
      (.error (.httpStatusError response.status), true, c)

/-! ## Client provisioning (`app/dependencies/ai_client.py`) -/

/-- Process-wide state behind `functools.lru_cache` on `_ai_client`: the
cached adapter instance (empty before first use) and a counter of
`OpenAICompatibleClient()` constructions performed so far; the counter
doubles as the allocator of fresh `httpx.AsyncClient` handles. -/
structure AIClientProcState where
  cached : Option OpenAICompatibleClient
  constructions : Nat
  deriving DecidableEq, Repr

/-- Cached factory `_ai_client` under `@lru_cache` (the function takes no
arguments, so the cache holds at most one entry): on a miss it constructs
`OpenAICompatibleClient()` — all constructor arguments defaulted, timeout
30.0 — stores it, and counts the construction; on a hit it returns the
stored instance unchanged. -/
def ai_client_cached (env : Env) (s : AIClientProcState) :
    OpenAICompatibleClient × AIClientProcState :=
  match s.cached with
  | some c => (c, s)
  | none =>
      let c := OpenAICompatibleClient.init env none none none 30 s.constructions
      (c, { cached := some c, constructions := s.constructions + 1 })

/-- Dependency `get_ai_client`: the async wrapper simply returns
`_ai_client()`. -/
def get_ai_client (env : Env) (s : AIClientProcState) :
    OpenAICompatibleClient × AIClientProcState :=
  ai_client_cached env s

/-! ## Consuming workflows

Embeddings of the AI-response handling segments — everything each workflow
does with the `ChatCompletionResult` it receives from `chat_completion`
until it returns or raises. The database records they build are kept to
the fields extracted from the AI output; identifiers copied from the
surrounding database context (resume/version ids, timestamps) are out of
scope of these claims. -/

/-- Record built by `ResumeService.analyze_version` from the parsed AI
output (the AI-derived fields of `ResumeAnalysis`). The three list fields
are wrapped as single-key objects, mirroring the source. -/
structure ResumeAnalysisRec where
  overall_score : Json
  structure_score : Json
  clarity_score : Json
  impact_score : Json
  strengths : Json
  weaknesses : Json
  suggestions : Json

/-- Record built by `ResumeService.create_match` (AI-derived fields of
`ResumeJobMatch`). -/
structure ResumeJobMatchRec where
  match_score : ℚ
  missing_skills : Json
  summary : Json

/-- Record built per suggestion item by
`ResumeService.generate_edit_suggestions` (AI-derived fields of
`ResumeEditSuggestion`). -/
structure ResumeEditSuggestionRec where
  original_excerpt : Json
  suggested_excerpt : Json
  rationale : Json

/-- Record built per insight item by
`RejectionInsightsService.generate_insights` (AI-derived fields of
`RejectionInsight`). -/
structure RejectionInsightRec where
  insight : Json
  recommended_actions : Json
  tags : Json

/-- Shared body of the `try:` blocks that read and parse the first choice
in one statement (`json.loads(result.choices[0].message.content)`): an
empty `choices` raises `IndexError`, unparseable content raises the JSON
decode error; both escape this expression and are caught by the
surrounding `except Exception`. -/
def parseFirstChoice (py : PyOracle) (result : ChatCompletionResult) :
    Except PyErr Json :=
  match result.choices with
  | [] => .error .indexError
  | c :: _ =>
      match py.jsonLoads c.message.content with
      | some v => .ok v
      | none => .error .jsonDecodeError

/-- Response handling of `ResumeService.analyze_version`, lines 159–182:
`content = result.choices[0].message.content` stands before (outside) the
`try` block, so an empty `choices` raises an uncaught `IndexError`; a
`json.loads` failure inside the `try` is re-raised as a
`ValidationException`; on success the `ResumeAnalysis` fields are
extracted with `parsed.get(...)` (which raises `AttributeError` when the
parsed value is not an object). -/
def analyze_version_ai (py : PyOracle) (result : ChatCompletionResult) :
    Except PyErr ResumeAnalysisRec :=
  match result.choices with
  | [] => .error .indexError
  | c :: _ =>
      match py.jsonLoads c.message.content with
      | none => .error (.validationException "AI provider returned an unexpected format")
      | some parsed => do
          let overall ← parsed.pyGet "overall_score" .null
          let structureScore ← parsed.pyGet "structure_score" .null
          let clarity ← parsed.pyGet "clarity_score" .null
          let impact ← parsed.pyGet "impact_score" .null
          let strengths ← parsed.pyGet "strengths" (.arr [])
          let weaknesses ← parsed.pyGet "weaknesses" (.arr [])
          let suggestions ← parsed.pyGet "suggestions" (.arr [])
          .ok { overall_score := overall
                structure_score := structureScore
                clarity_score := clarity
                impact_score := impact
                strengths := .obj [("items", strengths)]
                weaknesses := .obj [("items", weaknesses)]
                suggestions := .obj [("items", suggestions)] }

/-- Response handling of `ResumeService.create_match`, lines 234–251: the
`try` block wraps both the `choices[0]` access and `json.loads`, so either
failure becomes the `ValidationException`; then the match fields are
extracted, with `float(parsed.get("match_score", 0.0))`. -/
def create_match_ai (py : PyOracle) (result : ChatCompletionResult) :
    Except PyErr ResumeJobMatchRec :=
  match parseFirstChoice py result with
  | .error _ => .error (.validationException "AI provider returned an unexpected format")
  | .ok parsed => do
      let rawScore ← parsed.pyGet "match_score" (.num 0)
      let score ← pyFloat py rawScore
      let missing ← parsed.pyGet "missing_skills" (.arr [])
      let summary ← parsed.pyGet "summary" .null
      .ok { match_score := score, missing_skills := missing, summary := summary }

/-- Loop over `raw_suggestions` in
`ResumeService.generate_edit_suggestions`: each item's fields are read
with `item.get(...)` (raising `AttributeError` on a non-dict item), and
the built records are accumulated in order. -/
def buildEditSuggestions : List Json → Except PyErr (List ResumeEditSuggestionRec)
  | [] => .ok []
  | item :: rest => do
      let original ← item.pyGet "original_excerpt" (.str "")
      let suggested ← item.pyGet "suggested_excerpt" (.str "")
      let rationale ← item.pyGet "rationale" .null
      let tail ← buildEditSuggestions rest
      .ok ({ original_excerpt := original
             suggested_excerpt := suggested
             rationale := rationale } :: tail)

/-- Response handling of `ResumeService.generate_edit_suggestions`, lines
294–330: the `try` block wraps `choices[0]` and `json.loads` (either
failure becomes the `ValidationException`); a parsed value whose
`suggestions` field is not a list also raises a `ValidationException`. -/
def generate_edit_suggestions_ai (py : PyOracle) (result : ChatCompletionResult) :
    Except PyErr (List ResumeEditSuggestionRec) :=
  match parseFirstChoice py result with
  | .error _ => .error (.validationException "AI provider returned an unexpected format")
  | .ok parsed => do
      let raw ← parsed.pyGet "suggestions" (.arr [])
      match raw with
      | .arr items => buildEditSuggestions items
      | _ => .error (.validationException "AI provider returned an unexpected format")

/-- Loop over `raw_insights` in
`RejectionInsightsService.generate_insights`: per-item field extraction
with `item.get(...)`, accumulating records in order. -/
def buildInsights : List Json → Except PyErr (List RejectionInsightRec)
  | [] => .ok []
  | item :: rest => do
      let insight ← item.pyGet "insight" (.str "")
      let actions ← item.pyGet "recommended_actions" .null
      let tags ← item.pyGet "tags" .null
      let tail ← buildInsights rest
      .ok ({ insight := insight, recommended_actions := actions, tags := tags } :: tail)

/-- Response handling of `RejectionInsightsService.generate_insights`,
lines 117–139: the `try` block wraps `choices[0]` and `json.loads`, and
its `except Exception` clause gracefully degrades by returning the empty
list; a parsed value whose `insights` field is not a list also yields the
empty list. -/
def generate_insights_ai (py : PyOracle) (result : ChatCompletionResult) :
    Except PyErr (List RejectionInsightRec) :=
  match parseFirstChoice py result with
  | .error _ => .ok []
  | .ok parsed => do
      let raw ← parsed.pyGet "insights" (.arr [])
      match raw with
      | .arr items => buildInsights items
      | _ => .ok []

/-! ## Claim statements taken verbatim from the spec

Definitions in this block follow the spec's words, to be compared against
the behaviour of the embedded source code. -/

/-- Claim C6 as stated: whenever the call succeeds and the provider body
omits `model`, the result's model equals the originally requested model,
or the adapter's configured default when no model was requested. -/
def modelOmittedClaim (c : OpenAICompatibleClient) (req : ChatRequest)
    (transport : String → RequestPayload → HttpResponse) (nonce : Nat) : Prop :=
  ∀ r, (chat_completion c req transport nonce).1 = Except.ok r →
    (transport (endpointUrl c) (buildPayload c req)).body.model = none →
    r.model = (match req.model with
               | some m => m
               | none => c.default_model)

/-- Claim C8 as stated: the payload contains the resolved model (explicit
request model, else adapter default), the messages in supplied order, the
temperature and max_tokens values, and a metadata field if and only if a
metadata mapping was provided. -/
def payloadAsStatedClaim (c : OpenAICompatibleClient) (req : ChatRequest) : Prop :=
  (buildPayload c req).model = (match req.model with
                                | some m => m
                                | none => c.default_model) ∧
  (buildPayload c req).messages = req.messages ∧
  (buildPayload c req).temperature = req.temperature ∧
  (buildPayload c req).max_tokens = req.max_tokens ∧
  ((buildPayload c req).metadata.isSome ↔ req.metadata.isSome)

/-! ## Concrete fixtures for witnesses and counterexamples -/

/-- Adapter with a configured credential. -/
def clientOk : OpenAICompatibleClient :=
  { api_base := "https://api.openai.com/v1"
    api_key := "test-key"
    default_model := "gpt-4.1-mini"
    timeout_seconds := 30
    transportHandle := 0 }

/-- Adapter whose credential resolved to the empty string. -/
def clientNoKey : OpenAICompatibleClient :=
  { clientOk with api_key := "" }

/-- A request shaped like the resume-analysis call site. -/
def reqBasic : ChatRequest :=
  { model := some "resume-analysis"
    messages := [{ role := "system", content := "You are an expert, ethical career coach." },
                 { role := "user", content := "resume text" }]
    temperature := some (3/10)
    max_tokens := some 800
    metadata := some [("tool", Json.str "resume_analysis")] }

/-- The same request with no model given. -/
def reqNoModel : ChatRequest :=
  { reqBasic with model := none }

/-- The same request with the degenerate empty-string model. -/
def reqModelEmpty : ChatRequest :=
  { reqBasic with model := some "" }

/-- A request carrying the degenerate empty-string model together with a
provided-but-empty metadata mapping. -/
def reqPayloadEdge : ChatRequest :=
  { reqBasic with model := some "", metadata := some ([] : List (String × Json)) }

/-- A request shaped like the matching call site, with metadata. -/
def reqMeta : ChatRequest :=
  { model := some "resume-jd-match"
    messages := [{ role := "system", content := "Compare the resume and job description." }]
    temperature := some (2/10)
    max_tokens := some 600
    metadata := some [("tool", Json.str "resume_job_match")] }

/-- A provider body with every optional field absent. -/
def emptyBody : ProviderData :=
  { id := none, model := none, choices := none, usage := none }

/-- Transport double answering 500 with an empty body. -/
def transport500 : String → RequestPayload → HttpResponse :=
  fun _ _ => { status := 500, body := emptyBody }

/-- Transport double answering 200 with an empty body. -/
def transportOkEmpty : String → RequestPayload → HttpResponse :=
  fun _ _ => { status := 200, body := emptyBody }

/-- Two provider choices: one fully populated, one with every field
absent. -/
def pcsTwo : List ProviderChoice :=
  [ { index := some 0
      message := some { role := some "assistant", content := some "ok" }
      finish_reason := some "stop" },
    { index := none, message := none, finish_reason := none } ]

/-- Transport double answering 200 with the two-choice body. -/
def transportTwoChoices : String → RequestPayload → HttpResponse :=
  fun _ _ =>
    { status := 200
      body := { id := some "resp-1", model := some "gpt-4.1-mini",
                choices := some pcsTwo, usage := none } }

/-- Oracle instance for runs whose chat contents all fail Python's
`json.loads` — such as the literal text `not json`. -/
def noParseOracle : PyOracle :=
  { jsonLoads := fun _ => none, strToFloat := fun _ => none }

/-- A single normalized choice whose content is the text `not json`. -/
def choiceNotJson : ChatCompletionChoice :=
  { index := 0
    message := { role := "assistant", content := "not json" }
    finish_reason := some "stop" }

/-- A successful chat-completion result whose only choice carries
unparseable content. -/
def resNotJson : ChatCompletionResult :=
  { id := "chatcmpl-1", model := "resume-analysis"
    choices := [choiceNotJson], usage := none }

/-- A successful chat-completion result with an empty choices sequence. -/
def resNoChoices : ChatCompletionResult :=
  { id := "chatcmpl-2", model := "resume-analysis"
    choices := [], usage := none }

/-- Environment for provisioning runs: only the API key is set. -/
def env0 : Env :=
  { AI_API_BASE := none, AI_API_KEY := some "env-key", AI_MODEL_DEFAULT := none }

/-- Fresh process state: nothing cached, nothing constructed. -/
def procState0 : AIClientProcState :=
  { cached := none, constructions := 0 }

/-! ## Helper lemmas -/

theorem uuidStr_length (n : Nat) : (uuidStr n).length = n + 1 := by
  simp [uuidStr]

theorem uuidStr_ne_empty (n : Nat) : uuidStr n ≠ "" := by
  intro h
  have hl := congrArg String.length h
  rw [uuidStr_length] at hl
  simp at hl

theorem uuidStr_ne_of_ne {n m : Nat} (hnm : n ≠ m) : uuidStr n ≠ uuidStr m := by
  intro h
  have hl := congrArg String.length h
  rw [uuidStr_length, uuidStr_length] at hl
  exact hnm (Nat.succ_injective hl)

theorem normalizeChoices_length (k : Nat) (l : List ProviderChoice) :
    (normalizeChoices k l).length = l.length := by
  induction l generalizing k with
  | nil => rfl
  | cons pc rest ih => simp [normalizeChoices, ih]

theorem normalizeChoices_getElem (l : List ProviderChoice) (k i : Nat)
    (h : i < l.length) :
    (normalizeChoices k l)[i]? = some (normChoice (k + i) (l.get ⟨i, h⟩)) := by
  induction l generalizing k i with
  | nil => exact absurd h (Nat.not_lt_zero i)
  | cons pc rest ih =>
      cases i with
      | zero => simp [normalizeChoices]
      | succ j =>
          have hj : j < rest.length := Nat.lt_of_succ_lt_succ h
          have harith : k + (j + 1) = (k + 1) + j := by omega
          simp only [normalizeChoices, List.getElem?_cons_succ, List.get_cons_succ,
            harith]
          exact ih (k + 1) j hj

/-! ## Claim theorems -/

/-- C3: calling the adapter with no configured credential (api_key
resolving to empty) raises the configuration error before any network
call: the transport-invoked flag is false for every transport double, the
single-shot call performs no retry, and the client is untouched. -/
theorem chat_completion_no_credential (c : OpenAICompatibleClient)
    (req : ChatRequest) (transport : String → RequestPayload → HttpResponse)
    (nonce : Nat) (h : c.api_key = "") :
    chat_completion c req transport nonce =
      (Except.error (PyErr.runtimeError "AI_API_KEY is not configured"), false, c) := by
  simp [chat_completion, h]

theorem chat_completion_no_credential_witness :
    clientNoKey.api_key = "" ∧
    chat_completion clientNoKey reqBasic transport500 0 =
      (Except.error (PyErr.runtimeError "AI_API_KEY is not configured"), false, clientNoKey) :=
  ⟨rfl, chat_completion_no_credential clientNoKey reqBasic transport500 0 rfl⟩

/-- C4: with a configured credential, a non-success HTTP status (outside
2xx — httpx's `raise_for_status` raises for anything else) makes
`chat_completion` raise the status error; no success result, partial or
otherwise, is ever returned. -/
theorem chat_completion_http_error (c : OpenAICompatibleClient)
    (req : ChatRequest) (transport : String → RequestPayload → HttpResponse)
    (nonce : Nat) (hkey : c.api_key ≠ "")
    (hstatus : ¬(200 ≤ (transport (endpointUrl c) (buildPayload c req)).status ∧
                 (transport (endpointUrl c) (buildPayload c req)).status < 300)) :
    chat_completion c req transport nonce =
      (Except.error (PyErr.httpStatusError
          (transport (endpointUrl c) (buildPayload c req)).status), true, c) ∧
    ∀ r, (chat_completion c req transport nonce).1 ≠ Except.ok r := by
  have hmain : chat_completion c req transport nonce =
      (Except.error (PyErr.httpStatusError
          (transport (endpointUrl c) (buildPayload c req)).status), true, c) := by
    simp [chat_completion, hkey, hstatus]
  refine ⟨hmain, ?_⟩
  intro r hr
  rw [hmain] at hr
  exact Except.noConfusion hr

theorem chat_completion_http_error_witness :
    clientOk.api_key ≠ "" ∧
    chat_completion clientOk reqBasic transport500 0 =
      (Except.error (PyErr.httpStatusError 500), true, clientOk) :=
  ⟨by decide,
   (chat_completion_http_error clientOk reqBasic transport500 0
      (by decide) (by decide)).1⟩

/-- C9: client provisioning is idempotent — after the first use, every
subsequent `get_ai_client` call (any number of calls later) returns the
same instance and leaves the state unchanged; from an uncached state the
first call performs exactly one construction, and a cached state is
returned as-is with no construction. -/
theorem get_ai_client_singleton (env : Env) (s : AIClientProcState) :
    (∀ n, get_ai_client env
        ((fun st => (get_ai_client env st).2)^[n] (get_ai_client env s).2) =
        ((get_ai_client env s).1, (get_ai_client env s).2)) ∧
    (s.cached = none →
      (get_ai_client env s).2.constructions = s.constructions + 1) ∧
    (∀ c, s.cached = some c → get_ai_client env s = (c, s)) := by
  have hcached : (get_ai_client env s).2.cached = some (get_ai_client env s).1 := by
    rcases hs : s.cached with _ | c <;>
      simp [get_ai_client, ai_client_cached, hs]
  have hstep : ∀ (st : AIClientProcState) (cl : OpenAICompatibleClient),
      st.cached = some cl → get_ai_client env st = (cl, st) := by
    intro st cl hc
    simp [get_ai_client, ai_client_cached, hc]
  have hfix : get_ai_client env (get_ai_client env s).2 =
      ((get_ai_client env s).1, (get_ai_client env s).2) :=
    hstep _ _ hcached
  have hstate : (fun st => (get_ai_client env st).2) (get_ai_client env s).2 =
      (get_ai_client env s).2 := by
    simp only [hfix]
  refine ⟨?_, ?_, ?_⟩
  · intro n
    rw [Function.iterate_fixed hstate n]
    exact hfix
  · intro hnone
    simp [get_ai_client, ai_client_cached, hnone]
  · intro c hc
    simp [get_ai_client, ai_client_cached, hc]

theorem get_ai_client_singleton_witness :
    get_ai_client env0
        ((fun st => (get_ai_client env0 st).2)^[1] (get_ai_client env0 procState0).2) =
      ((get_ai_client env0 procState0).1, (get_ai_client env0 procState0).2) ∧
    (get_ai_client env0 procState0).2.constructions = 1 :=
  ⟨(get_ai_client_singleton env0 procState0).1 1,
   (get_ai_client_singleton env0 procState0).2.1 rfl⟩

/-- C10: `chat_completion` never mutates adapter state — on every path,
successful or failing, the client after the call is the one before it, so
in particular its api_base, api_key, default_model and underlying HTTP
client handle are unchanged. -/
theorem chat_completion_preserves_client (c : OpenAICompatibleClient)
    (req : ChatRequest) (transport : String → RequestPayload → HttpResponse)
    (nonce : Nat) :
    (chat_completion c req transport nonce).2.2 = c ∧
    (chat_completion c req transport nonce).2.2.api_base = c.api_base ∧
    (chat_completion c req transport nonce).2.2.api_key = c.api_key ∧
    (chat_completion c req transport nonce).2.2.default_model = c.default_model ∧
    (chat_completion c req transport nonce).2.2.transportHandle = c.transportHandle := by
  have h : (chat_completion c req transport nonce).2.2 = c := by
    unfold chat_completion
    split
    · rfl
    · dsimp only
      split <;> rfl
  exact ⟨h, by rw [h], by rw [h], by rw [h], by rw [h]⟩

/-- C5: a successful provider response with N choices yields exactly N
normalized choices, mapped positionally; per choice a missing index
defaults to its position, a missing message role to assistant, missing
message content to the empty string, and finish_reason passes through
(absence as None). -/
theorem chat_completion_choices_normalized (c : OpenAICompatibleClient)
    (req : ChatRequest) (transport : String → RequestPayload → HttpResponse)
    (nonce : Nat) (pcs : List ProviderChoice)
    (hkey : c.api_key ≠ "")
    (hstatus : 200 ≤ (transport (endpointUrl c) (buildPayload c req)).status ∧
               (transport (endpointUrl c) (buildPayload c req)).status < 300)
    (hchoices : (transport (endpointUrl c) (buildPayload c req)).body.choices = some pcs) :
    ∃ r, (chat_completion c req transport nonce).1 = Except.ok r ∧
      r.choices.length = pcs.length ∧
      ∀ i (h : i < pcs.length),
        r.choices[i]? = some
          { index := (pcs.get ⟨i, h⟩).index.getD (Int.ofNat i)
            message :=
              { role := ((pcs.get ⟨i, h⟩).message.getD
                  { role := none, content := none }).role.getD "assistant"
                content := ((pcs.get ⟨i, h⟩).message.getD
                  { role := none, content := none }).content.getD "" }
            finish_reason := (pcs.get ⟨i, h⟩).finish_reason } := by
  have hmain : (chat_completion c req transport nonce).1 = Except.ok
      { id := pyOrStr (transport (endpointUrl c) (buildPayload c req)).body.id
          (uuidStr nonce)
        model := ((transport (endpointUrl c) (buildPayload c req)).body.model).getD
          (pyOrStr req.model c.default_model)
        choices := normalizeChoices 0 pcs
        usage := (transport (endpointUrl c) (buildPayload c req)).body.usage } := by
    simp [chat_completion, hkey, hstatus, hchoices]
  refine ⟨_, hmain, ?_, ?_⟩
  · exact normalizeChoices_length 0 pcs
  · intro i h
    have hg := normalizeChoices_getElem pcs 0 i h
    rw [Nat.zero_add] at hg
    rw [hg]
    rfl

theorem chat_completion_choices_normalized_witness :
    clientOk.api_key ≠ "" ∧
    ∃ r, (chat_completion clientOk reqBasic transportTwoChoices 0).1 = Except.ok r ∧
      r.choices.length = pcsTwo.length ∧
      ∀ i (h : i < pcsTwo.length),
        r.choices[i]? = some
          { index := (pcsTwo.get ⟨i, h⟩).index.getD (Int.ofNat i)
            message :=
              { role := ((pcsTwo.get ⟨i, h⟩).message.getD
                  { role := none, content := none }).role.getD "assistant"
                content := ((pcsTwo.get ⟨i, h⟩).message.getD
                  { role := none, content := none }).content.getD "" }
            finish_reason := (pcsTwo.get ⟨i, h⟩).finish_reason } :=
  ⟨by decide,
   chat_completion_choices_normalized clientOk reqBasic transportTwoChoices 0 pcsTwo
     (by decide) (by decide) (by decide)⟩

/-- C6 counterexample: a call requesting the degenerate empty-string model
against a provider body omitting `model` yields the adapter default, while
the claim as stated demands the originally requested (empty) model. -/
theorem modelOmittedClaim_counterexample :
    ¬ modelOmittedClaim clientOk reqModelEmpty transportOkEmpty 0 := by
  intro h
  have h2 := h
    { id := uuidStr 0
      model := "gpt-4.1-mini"
      choices := []
      usage := none } rfl rfl
  exact absurd h2 (by decide)

/-- C6 amended: when the provider response omits `model`, the result's
model equals the originally requested model when a non-empty model string
was requested; when no model was requested — or the requested model is the
empty string, which Python string truthiness treats the same — it equals
the adapter's configured default model. -/
theorem chat_completion_model_fallback (c : OpenAICompatibleClient)
    (req : ChatRequest) (transport : String → RequestPayload → HttpResponse)
    (nonce : Nat)
    (hkey : c.api_key ≠ "")
    (hstatus : 200 ≤ (transport (endpointUrl c) (buildPayload c req)).status ∧
               (transport (endpointUrl c) (buildPayload c req)).status < 300)
    (homit : (transport (endpointUrl c) (buildPayload c req)).body.model = none) :
    ∃ r, (chat_completion c req transport nonce).1 = Except.ok r ∧
      (∀ m, req.model = some m → m ≠ "" → r.model = m) ∧
      ((req.model = none ∨ req.model = some "") → r.model = c.default_model) := by
  have hmain : (chat_completion c req transport nonce).1 = Except.ok
      { id := pyOrStr (transport (endpointUrl c) (buildPayload c req)).body.id
          (uuidStr nonce)
        model := pyOrStr req.model c.default_model
        choices := normalizeChoices 0
          ((transport (endpointUrl c) (buildPayload c req)).body.choices.getD [])
        usage := (transport (endpointUrl c) (buildPayload c req)).body.usage } := by
    simp [chat_completion, hkey, hstatus, homit]
  refine ⟨_, hmain, ?_, ?_⟩
  · intro m hm hne
    simp [pyOrStr, hm, hne]
  · rintro (hm | hm) <;> simp [pyOrStr, hm]

theorem chat_completion_model_fallback_witness :
    ∃ r, (chat_completion clientOk reqNoModel transportOkEmpty 1).1 = Except.ok r ∧
      (∀ m, reqNoModel.model = some m → m ≠ "" → r.model = m) ∧
      ((reqNoModel.model = none ∨ reqNoModel.model = some "") →
        r.model = clientOk.default_model) :=
  chat_completion_model_fallback clientOk reqNoModel transportOkEmpty 1
    (by decide) (by decide) (by decide)

/-- C7: when the provider response omits `id`, the result's id is the
fresh uuid draw of the call, hence non-empty; two calls drawing distinct
nonces — which the process-wide uuid source guarantees for distinct calls
— receive distinct ids. -/
theorem chat_completion_fresh_id
    (c₁ c₂ : OpenAICompatibleClient) (req₁ req₂ : ChatRequest)
    (t₁ t₂ : String → RequestPayload → HttpResponse) (n₁ n₂ : Nat)
    (hkey₁ : c₁.api_key ≠ "") (hkey₂ : c₂.api_key ≠ "")
    (hstatus₁ : 200 ≤ (t₁ (endpointUrl c₁) (buildPayload c₁ req₁)).status ∧
                (t₁ (endpointUrl c₁) (buildPayload c₁ req₁)).status < 300)
    (hstatus₂ : 200 ≤ (t₂ (endpointUrl c₂) (buildPayload c₂ req₂)).status ∧
                (t₂ (endpointUrl c₂) (buildPayload c₂ req₂)).status < 300)
    (hid₁ : (t₁ (endpointUrl c₁) (buildPayload c₁ req₁)).body.id = none)
    (hid₂ : (t₂ (endpointUrl c₂) (buildPayload c₂ req₂)).body.id = none)
    (hne : n₁ ≠ n₂) :
    ∃ r₁ r₂, (chat_completion c₁ req₁ t₁ n₁).1 = Except.ok r₁ ∧
      (chat_completion c₂ req₂ t₂ n₂).1 = Except.ok r₂ ∧
      r₁.id ≠ "" ∧ r₂.id ≠ "" ∧ r₁.id ≠ r₂.id := by
  have hmain₁ : (chat_completion c₁ req₁ t₁ n₁).1 = Except.ok
      { id := uuidStr n₁
        model := ((t₁ (endpointUrl c₁) (buildPayload c₁ req₁)).body.model).getD
          (pyOrStr req₁.model c₁.default_model)
        choices := normalizeChoices 0
          ((t₁ (endpointUrl c₁) (buildPayload c₁ req₁)).body.choices.getD [])
        usage := (t₁ (endpointUrl c₁) (buildPayload c₁ req₁)).body.usage } := by
    simp [chat_completion, hkey₁, hstatus₁, hid₁, pyOrStr]
  have hmain₂ : (chat_completion c₂ req₂ t₂ n₂).1 = Except.ok
      { id := uuidStr n₂
        model := ((t₂ (endpointUrl c₂) (buildPayload c₂ req₂)).body.model).getD
          (pyOrStr req₂.model c₂.default_model)
        choices := normalizeChoices 0
          ((t₂ (endpointUrl c₂) (buildPayload c₂ req₂)).body.choices.getD [])
        usage := (t₂ (endpointUrl c₂) (buildPayload c₂ req₂)).body.usage } := by
    simp [chat_completion, hkey₂, hstatus₂, hid₂, pyOrStr]
  exact ⟨_, _, hmain₁, hmain₂,
    uuidStr_ne_empty n₁, uuidStr_ne_empty n₂, uuidStr_ne_of_ne hne⟩

theorem chat_completion_fresh_id_witness :
    ∃ r₁ r₂, (chat_completion clientOk reqBasic transportOkEmpty 0).1 = Except.ok r₁ ∧
      (chat_completion clientOk reqNoModel transportOkEmpty 1).1 = Except.ok r₂ ∧
      r₁.id ≠ "" ∧ r₂.id ≠ "" ∧ r₁.id ≠ r₂.id :=
  chat_completion_fresh_id clientOk clientOk reqBasic reqNoModel
    transportOkEmpty transportOkEmpty 0 1
    (by decide) (by decide) (by decide) (by decide) (by decide) (by decide)
    (by decide)

/-- C8 counterexample: a request supplying the empty-string model and a
provided-but-empty metadata mapping refutes the claim as stated — the
payload model falls back to the adapter default rather than the requested
empty string, and no metadata field is added although a mapping was
provided. -/
theorem payloadAsStatedClaim_counterexample :
    ¬ payloadAsStatedClaim clientOk reqPayloadEdge := by
  unfold payloadAsStatedClaim
  decide

/-- C8 amended: the payload contains the resolved model (the explicit
request model when it is a non-empty string, else the adapter default),
the messages exactly in supplied order, the temperature and max_tokens
values, and a metadata field if and only if a non-empty metadata mapping
was provided (Python mapping truthiness drops an empty mapping). -/
theorem buildPayload_spec (c : OpenAICompatibleClient) (req : ChatRequest) :
    (∀ m, req.model = some m → m ≠ "" → (buildPayload c req).model = m) ∧
    ((req.model = none ∨ req.model = some "") →
      (buildPayload c req).model = c.default_model) ∧
    (buildPayload c req).messages = req.messages ∧
    (buildPayload c req).temperature = req.temperature ∧
    (buildPayload c req).max_tokens = req.max_tokens ∧
    (∀ md, req.metadata = some md → md ≠ [] →
      (buildPayload c req).metadata = some md) ∧
    ((req.metadata = none ∨ req.metadata = some []) →
      (buildPayload c req).metadata = none) := by
  refine ⟨?_, ?_, rfl, rfl, rfl, ?_, ?_⟩
  · intro m hm hne
    simp [buildPayload, pyOrStr, hm, hne]
  · rintro (hm | hm) <;> simp [buildPayload, pyOrStr, hm]
  · intro md hmd hne
    simp [buildPayload, hmd, List.isEmpty_iff, hne]
  · rintro (hmd | hmd) <;> simp [buildPayload, hmd]

theorem buildPayload_spec_witness :
    (buildPayload clientOk reqMeta).model = "resume-jd-match" ∧
    (buildPayload clientOk reqMeta).metadata =
      some [("tool", Json.str "resume_job_match")] :=
  ⟨(buildPayload_spec clientOk reqMeta).1 "resume-jd-match" rfl (by decide),
   (buildPayload_spec clientOk reqMeta).2.2.2.2.2.1
     [("tool", Json.str "resume_job_match")] rfl (List.cons_ne_nil _ _)⟩

/-- C1 counterexample: on a successful result whose first choice carries
the unparseable text `not json`, the resume-analysis workflow does not
return an empty result — it raises a ValidationException (surfaced at the
HTTP boundary as a 422 error response by the application-wide
`JobPathException` handler), refuting the claim that every consuming
workflow handles a malformed-content parse failure without raising. -/
theorem analyze_version_raises_on_not_json :
    analyze_version_ai noParseOracle resNotJson =
      Except.error (PyErr.validationException
        "AI provider returned an unexpected format") := rfl

/-- C1 amended: when chat_completion succeeds but the first choice's
content is not parseable as JSON, only the rejection-insight workflow
returns an empty list without raising; the resume-analysis, matching and
edit-suggestion workflows each raise a ValidationException, which
propagates to the HTTP boundary as an error response. -/
theorem parse_failure_per_workflow (py : PyOracle)
    (res : ChatCompletionResult) (ch : ChatCompletionChoice)
    (rest : List ChatCompletionChoice)
    (hchoices : res.choices = ch :: rest)
    (hparse : py.jsonLoads ch.message.content = none) :
    generate_insights_ai py res = Except.ok [] ∧
    analyze_version_ai py res =
      Except.error (PyErr.validationException
        "AI provider returned an unexpected format") ∧
    create_match_ai py res =
      Except.error (PyErr.validationException
        "AI provider returned an unexpected format") ∧
    generate_edit_suggestions_ai py res =
      Except.error (PyErr.validationException
        "AI provider returned an unexpected format") := by
  refine ⟨?_, ?_, ?_, ?_⟩ <;>
    simp [generate_insights_ai, analyze_version_ai, create_match_ai,
      generate_edit_suggestions_ai, parseFirstChoice, hchoices, hparse]

theorem parse_failure_per_workflow_witness :
    noParseOracle.jsonLoads choiceNotJson.message.content = none ∧
    generate_insights_ai noParseOracle resNotJson = Except.ok [] ∧
    analyze_version_ai noParseOracle resNotJson =
      Except.error (PyErr.validationException
        "AI provider returned an unexpected format") ∧
    create_match_ai noParseOracle resNotJson =
      Except.error (PyErr.validationException
        "AI provider returned an unexpected format") ∧
    generate_edit_suggestions_ai noParseOracle resNotJson =
      Except.error (PyErr.validationException
        "AI provider returned an unexpected format") :=
  ⟨rfl, parse_failure_per_workflow noParseOracle resNotJson choiceNotJson []
    rfl rfl⟩

/-- C2: evaluating the code at the failing input — a chat-completion
result with an empty choices sequence. The rejection-insight workflow
guards its first-choice access inside its try/except and degrades to an
empty list, but `ResumeService.analyze_version` reads
`result.choices[0].message.content` outside any guard and raises an
uncaught IndexError, contradicting the contract that callers must treat
an empty sequence as no answer and never index into it unconditionally. -/
theorem analyze_version_empty_choices_code_bug :
    analyze_version_ai noParseOracle resNoChoices = Except.error PyErr.indexError ∧
    generate_insights_ai noParseOracle resNoChoices = Except.ok [] :=
  ⟨rfl, rfl⟩

end JobPilot
